import Mathlib

/-! # Earring try-on: pose solver and metal presets

A shallow embedding of `earring-tryon/main.js`.

* JavaScript numbers are taken as exact numbers of an ordered field `K`
  (rounding is not modelled).  Everything that needs no square root is
  generic in `K` and runs on `ℚ`; `distanceTo` calls `Math.sqrt`, so the
  face width and `onResults` live over `ℝ`.
* The mutable globals `leftEarring`, `rightEarring`, `currentMetal` are the
  fields of `State`; a function that mutates them returns the new state.
* A thrown `TypeError` is an explicit outcome, see `Outcome`.
* `onResults` is the pose update on states that hold numbers; it stops with
  `Outcome.notANumber` at a frame of face width zero, where JavaScript computes
  `0 / 0`.  `onResultsJS` is the same function on states that may hold `NaN` and
  carries that frame out; `onResultsJS_of_returned`, `onResultsJS_of_threw` and
  `onResultsJS_of_notANumber` relate the two.
* The methods of `THREE.Vector3` and `Object3D.traverse` follow three.js.
-/

namespace EarringTryon

variable {K : Type} [LinearOrderedField K]

/-! ## THREE.Vector3 -/

/-- Point or vector with the three fields of `THREE.Vector3`. -/
structure Vector3 (K : Type) where
  x : K
  y : K
  z : K

/-- Copy of a vector: `v.clone()`. -/
def Vector3.clone (a : Vector3 K) : Vector3 K :=
  ⟨a.x, a.y, a.z⟩

/-- Componentwise sum: `a.add(b)`. -/
def Vector3.add (a b : Vector3 K) : Vector3 K :=
  ⟨a.x + b.x, a.y + b.y, a.z + b.z⟩

/-- Product with a number: `a.multiplyScalar(s)`. -/
def Vector3.multiplyScalar (a : Vector3 K) (s : K) : Vector3 K :=
  ⟨a.x * s, a.y * s, a.z * s⟩

/-- Linear interpolation `a.lerp(v, alpha)`: each field does
`this.x += (v.x - this.x) * alpha`. -/
def Vector3.lerp (a v : Vector3 K) (alpha : K) : Vector3 K :=
  ⟨a.x + (v.x - a.x) * alpha, a.y + (v.y - a.y) * alpha, a.z + (v.z - a.z) * alpha⟩

/-- All three fields set to one number: `a.setScalar(s)`. -/
def Vector3.setScalar (_a : Vector3 K) (s : K) : Vector3 K :=
  ⟨s, s, s⟩

/-- Squared distance `a.distanceToSquared(b)`: `dx * dx + dy * dy + dz * dz`. -/
def Vector3.distanceToSquared (a b : Vector3 K) : K :=
  (a.x - b.x) * (a.x - b.x) + (a.y - b.y) * (a.y - b.y) + (a.z - b.z) * (a.z - b.z)

/-- Euclidean distance `a.distanceTo(b)`: `Math.sqrt(a.distanceToSquared(b))`. -/
noncomputable def Vector3.distanceTo (a b : Vector3 ℝ) : ℝ :=
  Real.sqrt (a.distanceToSquared b)

/-! ## Metal presets and materials -/

/-- One entry of the table `METALS`. -/
structure Preset (K : Type) where
  color : Nat
  metalness : K
  roughness : K

/-- The table `METALS` read at a key: `METALS[type]`, for a key that is one of
the three names of the table or is found nowhere (JavaScript: `undefined`, here
`none`).  A key that JavaScript finds on `Object.prototype`, such as `toString`
or `constructor`, yields an object without the three properties; such keys are
not modelled. -/
def METALS (type : String) : Option (Preset K) :=
  if type = "gold" then some ⟨0xd4af37, 1.0, 0.25⟩
  else if type = "silver" then some ⟨0xe6e6e6, 1.0, 0.2⟩
  else if type = "rose" then some ⟨0xb76e79, 1.0, 0.3⟩
  else none

/-- Material of a mesh: the three properties written by `applyMetal`, and the
flag `needsUpdate` written by `setupEarring`, which `applyMetal` leaves alone. -/
structure Material (K : Type) where
  color : Nat
  metalness : K
  roughness : K
  needsUpdate : Bool

/-- Node of a scene graph.  A node with a material is a mesh (`o.isMesh`). -/
inductive Object3D (K : Type) where
  | node (material : Option (Material K)) (children : List (Object3D K))

mutual
/-- The traversal `o.traverse(cb)` for a callback that rewrites the material of
every mesh: the node itself, then all its descendants. -/
def Object3D.traverse (cb : Material K → Material K) : Object3D K → Object3D K
  | .node m cs => .node (m.map cb) (Object3D.traverseAll cb cs)
/-- The traversal of a list of children. -/
def Object3D.traverseAll (cb : Material K → Material K) : List (Object3D K) → List (Object3D K)
  | [] => []
  | c :: cs => c.traverse cb :: Object3D.traverseAll cb cs
end

mutual
/-- The materials of all meshes of a scene graph, in traversal order. -/
def Object3D.materials : Object3D K → List (Material K)
  | .node m cs => m.toList ++ Object3D.materialsAll cs
/-- The materials of all meshes of a list of children. -/
def Object3D.materialsAll : List (Object3D K) → List (Material K)
  | [] => []
  | c :: cs => c.materials ++ Object3D.materialsAll cs
end

/-! ## Attachments and global state -/

/-- An earring model after `setupEarring`: the scene graph cloned from the
asset, `userData.side`, and the transform and visibility of its root. -/
structure Earring (K : Type) where
  graph : Object3D K
  side : K
  position : Vector3 K
  scale : Vector3 K
  rotation : Vector3 K
  visible : Bool

/-- The globals of the script.  An earring is `none` until the asset is loaded. -/
structure State (K : Type) where
  leftEarring : Option (Earring K)
  rightEarring : Option (Earring K)
  currentMetal : String

/-- Exceptions the modelled code can raise. -/
inductive JSError where
  | typeError

/-- How a call ends.  `returned s`: normal return in state `s`.  `threw e s`:
exception `e`, the globals being `s` at the throw.  `notANumber`: the call
divides `0 / 0`; JavaScript goes on with `NaN`, writes it into the attachments
and returns.  A state of numbers cannot hold that result; `onResultsJS` computes
it. -/
inductive Outcome (σ : Type) where
  | returned (s : σ)
  | threw (e : JSError) (s : σ)
  | notANumber

/-- The callback of `applyMetal`: color, metalness and roughness of one mesh
material are overwritten with the preset. -/
def Material.setPreset (m : Preset K) (mat : Material K) : Material K :=
  { mat with color := m.color, metalness := m.metalness, roughness := m.roughness }

/-- The function `applyMetal(model, type)`.  No model: nothing happens.  An
unknown `type` makes `m` undefined, and `m.color` throws at the first mesh
visited, before any material is changed. -/
def applyMetal (model : Option (Earring K)) (type : String) :
    Except JSError (Option (Earring K)) :=
  match model with
  | none => .ok none
  | some e =>
    match (METALS type : Option (Preset K)) with
    | some m => .ok (some { e with graph := e.graph.traverse (Material.setPreset m) })
    | none => if e.graph.materials.isEmpty then .ok (some e) else .error .typeError

/-- The function `window.setMetal(type)`. -/
def setMetal (s : State K) (type : String) : Outcome (State K) :=
  let s1 : State K := { s with currentMetal := type }
  match applyMetal s1.leftEarring type with
  | .error e => .threw e s1
  | .ok l =>
    let s2 : State K := { s1 with leftEarring := l }
    match applyMetal s2.rightEarring type with
    | .error e => .threw e s2
    | .ok r => .returned { s2 with rightEarring := r }

/-! ## Landmarks and the pose update -/

/-- Raw landmark of the detector. -/
structure Landmark (K : Type) where
  x : K
  y : K
  z : K

/-- The argument of `onResults`.  The field `multiFaceLandmarks` is `none` when
absent (any falsy value), else the list of detected faces, each face a list of
landmarks. -/
structure Results (K : Type) where
  multiFaceLandmarks : Option (List (List (Landmark K)))

/-- The function `lm(l)`. -/
def lm (l : Landmark K) : Vector3 K :=
  ⟨(l.x - 0.5) * 2, -(l.y - 0.5) * 2, -l.z * 0.5⟩

/-- The locals of `onResults` that the inner function `place` reads. -/
structure Pose (K : Type) where
  faceCenter : Vector3 K
  faceWidth : K
  yaw : K
  baseY : K
  nose : Vector3 K

/-- The target point built in `place`: the locals `x`, `y`, `z`. -/
def target (c : Pose K) (side : K) : Vector3 K :=
  ⟨c.faceCenter.x + side * c.faceWidth * 0.42,
   c.baseY - abs c.yaw * c.faceWidth * 0.04,
   c.nose.z - c.faceWidth * (0.25 + abs c.yaw * 0.4)⟩

/-- The inner function `place(model)` of `onResults`. -/
def place (c : Pose K) (model : Earring K) : Earring K :=
  let side := model.side
  let position := model.position.lerp (target c side) 0.45
  let scale := c.faceWidth * 0.08
  let swing := c.yaw * 0.6
  let rotZ := model.rotation.z + (side * swing - model.rotation.z) * 0.15
  let VIS_YAW : K := 0.15
  let visible : Bool := if side = -1 then decide (c.yaw < VIS_YAW) else decide (c.yaw > -VIS_YAW)
  { model with
    position := position
    scale := model.scale.setScalar scale
    rotation := { model.rotation with z := rotZ }
    visible := visible }

/-- The locals `faceCenter`, `faceWidth`, `yaw`, `baseY` of `onResults`, from the
three render-space points.  A face width of zero makes `yaw` the quotient
`0 / 0`: the result is `none`. -/
noncomputable def solvePose (leftCheek rightCheek nose : Vector3 ℝ) : Option (Pose ℝ) :=
  let faceCenter := (leftCheek.clone.add rightCheek).multiplyScalar 0.5
  let faceWidth := leftCheek.distanceTo rightCheek
  if faceWidth = 0 then none
  else
    let yaw := (rightCheek.z - leftCheek.z) / faceWidth
    let baseY := faceCenter.y - faceWidth * 0.18
    some ⟨faceCenter, faceWidth, yaw, baseY, nose⟩

/-- The function `onResults(res)` on states that hold numbers.  It returns at
once when `res` has no `multiFaceLandmarks` or the left earring is not loaded.
Reading a landmark of a missing face, a missing landmark, or the `userData` of a
missing right earring throws a `TypeError`.  At face width zero the outcome is
`notANumber`; what the code writes there is given by `onResultsJS`. -/
noncomputable def onResults (s : State ℝ) (res : Results ℝ) : Outcome (State ℝ) :=
  match res.multiFaceLandmarks, s.leftEarring with
  | none, _ => .returned s
  | some _, none => .returned s
  | some faces, some left =>
    match faces[0]? with
    | none => .threw .typeError s
    | some f =>
      match f[234]?, f[454]?, f[1]? with
      | some l234, some l454, some l1 =>
        match solvePose (lm l234) (lm l454) (lm l1) with
        | none => .notANumber
        | some c =>
          let s1 : State ℝ := { s with leftEarring := some (place c left) }
          match s1.rightEarring with
          | none => .threw .typeError s1
          | some right => .returned { s1 with rightEarring := some (place c right) }
      | _, _, _ => .threw .typeError s

/-- The earring after `n` calls of `place` with the same locals `c`, that is
after `n` pose updates for the same frame. -/
def placeN (c : Pose K) (n : Nat) (model : Earring K) : Earring K :=
  (place c)^[n] model

/-! ## The pose update with NaN

The attachments can hold `NaN`: a frame of face width zero writes it (the quotient
`0 / 0`), and it stays for all later frames.  The definitions below repeat the
pose update over numbers that are an exact real or `NaN` (`none`), so that these
states are part of the model.  The landmarks of the detector are numbers. -/

/-- Sum of two JavaScript numbers; `NaN` (`none`) if an operand is `NaN`. -/
def nanAdd : Option K → Option K → Option K
  | some a, some b => some (a + b)
  | _, _ => none

/-- Difference of two JavaScript numbers; `NaN` if an operand is `NaN`. -/
def nanSub : Option K → Option K → Option K
  | some a, some b => some (a - b)
  | _, _ => none

/-- Product of two JavaScript numbers; `NaN` if an operand is `NaN` (also for
`0 * NaN`). -/
def nanMul : Option K → Option K → Option K
  | some a, some b => some (a * b)
  | _, _ => none

/-- The function `Math.abs`; `NaN` for `NaN`. -/
def nanAbs : Option K → Option K
  | some a => some (abs a)
  | none => none

/-- The comparison `a < b`; false if an operand is `NaN`. -/
def nanLt : Option K → Option K → Bool
  | some a, some b => decide (a < b)
  | _, _ => false

/-- An earring whose transform may hold `NaN`. -/
structure EarringJS (K : Type) where
  graph : Object3D K
  side : K
  position : Vector3 (Option K)
  scale : Vector3 (Option K)
  rotation : Vector3 (Option K)
  visible : Bool

/-- The globals of the script, with earrings that may hold `NaN`. -/
structure StateJS (K : Type) where
  leftEarring : Option (EarringJS K)
  rightEarring : Option (EarringJS K)
  currentMetal : String

/-- The locals of `onResults` that `place` reads, with a `yaw` that may be `NaN`. -/
structure PoseJS (K : Type) where
  faceCenter : Vector3 K
  faceWidth : K
  yaw : Option K
  baseY : K
  nose : Vector3 K

/-- Linear interpolation `a.lerp(v, alpha)` on fields that may be `NaN`. -/
def lerpJS (a v : Vector3 (Option K)) (alpha : K) : Vector3 (Option K) :=
  ⟨nanAdd a.x (nanMul (nanSub v.x a.x) (some alpha)),
   nanAdd a.y (nanMul (nanSub v.y a.y) (some alpha)),
   nanAdd a.z (nanMul (nanSub v.z a.z) (some alpha))⟩

/-- The target point built in `place`, for a `yaw` that may be `NaN`. -/
def targetJS (c : PoseJS K) (side : K) : Vector3 (Option K) :=
  ⟨some (c.faceCenter.x + side * c.faceWidth * 0.42),
   nanSub (some c.baseY) (nanMul (nanMul (nanAbs c.yaw) (some c.faceWidth)) (some 0.04)),
   nanSub (some c.nose.z)
     (nanMul (some c.faceWidth) (nanAdd (some 0.25) (nanMul (nanAbs c.yaw) (some 0.4))))⟩

/-- The inner function `place(model)`, for numbers that may be `NaN`. -/
def placeJS (c : PoseJS K) (model : EarringJS K) : EarringJS K :=
  let side := model.side
  let position := lerpJS model.position (targetJS c side) 0.45
  let scale : K := c.faceWidth * 0.08
  let swing := nanMul c.yaw (some 0.6)
  let rotZ := nanAdd model.rotation.z
    (nanMul (nanSub (nanMul (some side) swing) model.rotation.z) (some 0.15))
  let VIS_YAW : K := 0.15
  let visible : Bool :=
    if side = -1 then nanLt c.yaw (some VIS_YAW) else nanLt (some (-VIS_YAW)) c.yaw
  { model with
    position := position
    scale := ⟨some scale, some scale, some scale⟩
    rotation := { model.rotation with z := rotZ }
    visible := visible }

/-- The locals of `onResults` from the three render-space points.  At face width
zero the two cheeks are the same point, so the numerator of `yaw` is zero as
well: the quotient is `0 / 0`, which is `NaN`. -/
noncomputable def solvePoseJS (leftCheek rightCheek nose : Vector3 ℝ) : PoseJS ℝ :=
  let faceCenter := (leftCheek.clone.add rightCheek).multiplyScalar 0.5
  let faceWidth := leftCheek.distanceTo rightCheek
  let yaw : Option ℝ :=
    if faceWidth = 0 then none else some ((rightCheek.z - leftCheek.z) / faceWidth)
  let baseY := faceCenter.y - faceWidth * 0.18
  ⟨faceCenter, faceWidth, yaw, baseY, nose⟩

/-- The function `onResults(res)` on states that may hold `NaN`.  The guards and
the thrown errors are those of `onResults`; a frame of face width zero places
both earrings with a `yaw` that is `NaN`, and the call returns. -/
noncomputable def onResultsJS (s : StateJS ℝ) (res : Results ℝ) : Outcome (StateJS ℝ) :=
  match res.multiFaceLandmarks, s.leftEarring with
  | none, _ => .returned s
  | some _, none => .returned s
  | some faces, some left =>
    match faces[0]? with
    | none => .threw .typeError s
    | some f =>
      match f[234]?, f[454]?, f[1]? with
      | some l234, some l454, some l1 =>
        let c := solvePoseJS (lm l234) (lm l454) (lm l1)
        let s1 : StateJS ℝ := { s with leftEarring := some (placeJS c left) }
        match s1.rightEarring with
        | none => .threw .typeError s1
        | some right => .returned { s1 with rightEarring := some (placeJS c right) }
      | _, _, _ => .threw .typeError s

/-- A vector of numbers as a vector that may hold `NaN`. -/
def Vector3.toJS (v : Vector3 K) : Vector3 (Option K) :=
  ⟨some v.x, some v.y, some v.z⟩

/-- An earring that holds numbers, as an earring that may hold `NaN`. -/
def Earring.toJS (e : Earring K) : EarringJS K :=
  ⟨e.graph, e.side, e.position.toJS, e.scale.toJS, e.rotation.toJS, e.visible⟩

/-- A state that holds numbers, as a state that may hold `NaN`. -/
def State.toJS (s : State K) : StateJS K :=
  ⟨s.leftEarring.map Earring.toJS, s.rightEarring.map Earring.toJS, s.currentMetal⟩

/-- Locals with a `yaw` that is a number. -/
def Pose.toJS (c : Pose K) : PoseJS K :=
  ⟨c.faceCenter, c.faceWidth, some c.yaw, c.baseY, c.nose⟩

/-- The six fields of position and rotation hold numbers, none is `NaN`. -/
def EarringJS.PoseIsNumber (e : EarringJS K) : Prop :=
  e.position.x.isSome ∧ e.position.y.isSome ∧ e.position.z.isSome ∧
  e.rotation.x.isSome ∧ e.rotation.y.isSome ∧ e.rotation.z.isSome

/-- The nine fields of position, scale and rotation hold numbers. -/
def EarringJS.IsNumber (e : EarringJS K) : Prop :=
  e.PoseIsNumber ∧ e.scale.x.isSome ∧ e.scale.y.isSome ∧ e.scale.z.isSome

/-! ## Example inputs -/

/-- Example face frame of 478 landmarks: the given landmarks at the indices 234,
454 and 1, and the nose landmark at every other index. -/
def frameOf {α : Type} (l234 l454 l1 : α) : List α :=
  (List.range 478).map (fun i => if i = 234 then l234 else if i = 454 then l454 else l1)

/-- Raw landmark whose render-space point is `(-0.3, 0, 0)`. -/
def rawLeftCheek : Landmark K := ⟨0.35, 0.5, 0⟩

/-- Raw landmark whose render-space point is `(0.3, 0, 0)`. -/
def rawRightCheek : Landmark K := ⟨0.65, 0.5, 0⟩

/-- Raw landmark whose render-space point is `(0.3, 0, -0.5)`. -/
def rawRightCheekFar : Landmark K := ⟨0.65, 0.5, 1⟩

/-- Raw landmark whose render-space point is `(0, 0, 0)`. -/
def rawNose : Landmark K := ⟨0.5, 0.5, 0⟩

/-- Example scene graph: a group with one mesh child and one group child that
holds a second mesh. -/
def exampleGraph : Object3D K :=
  .node none
    [.node (some ⟨0xffffff, 0, 1, true⟩) [],
     .node none [.node (some ⟨0x808080, 0.5, 0.5, true⟩) []]]

/-- Example earring of the given side, at the origin with unit scale. -/
def exampleEarring (side : K) : Earring K :=
  ⟨exampleGraph, side, ⟨0, 0, 0⟩, ⟨1, 1, 1⟩, ⟨0, 0, 0⟩, true⟩

/-- Example state after the asset is loaded. -/
def loadedState : State K :=
  ⟨some (exampleEarring (-1)), some (exampleEarring 1), "gold"⟩

/-! ## Auxiliary lemmas -/

theorem frameOf_234 {α : Type} (a b n : α) : (frameOf a b n)[234]? = some a := by
  simp [frameOf, List.getElem?_range]

theorem frameOf_454 {α : Type} (a b n : α) : (frameOf a b n)[454]? = some b := by
  simp [frameOf, List.getElem?_range]

theorem frameOf_1 {α : Type} (a b n : α) : (frameOf a b n)[1]? = some n := by
  simp [frameOf, List.getElem?_range]

theorem distanceTo_nonneg (a b : Vector3 ℝ) : 0 ≤ a.distanceTo b :=
  Real.sqrt_nonneg _

theorem distanceToSquared_nonneg (a b : Vector3 K) : 0 ≤ a.distanceToSquared b := by
  unfold Vector3.distanceToSquared
  exact add_nonneg (add_nonneg (mul_self_nonneg _) (mul_self_nonneg _)) (mul_self_nonneg _)

theorem distanceTo_mul_self (a b : Vector3 ℝ) :
    a.distanceTo b * a.distanceTo b = a.distanceToSquared b :=
  Real.mul_self_sqrt (distanceToSquared_nonneg a b)

theorem distanceTo_eq_of_sq (a b : Vector3 ℝ) (w : ℝ) (hw : 0 ≤ w)
    (h : a.distanceToSquared b = w * w) : a.distanceTo b = w := by
  unfold Vector3.distanceTo
  rw [h]
  exact Real.sqrt_mul_self hw

theorem distanceTo_eq_zero_iff (a b : Vector3 ℝ) :
    a.distanceTo b = 0 ↔ a.x = b.x ∧ a.y = b.y ∧ a.z = b.z := by
  unfold Vector3.distanceTo
  rw [Real.sqrt_eq_zero (distanceToSquared_nonneg a b)]
  unfold Vector3.distanceToSquared
  constructor
  · intro h
    have hx := mul_self_nonneg (a.x - b.x)
    have hy := mul_self_nonneg (a.y - b.y)
    have hz := mul_self_nonneg (a.z - b.z)
    refine ⟨?_, ?_, ?_⟩
    · have : (a.x - b.x) * (a.x - b.x) = 0 := by linarith
      exact sub_eq_zero.mp (mul_self_eq_zero.mp this)
    · have : (a.y - b.y) * (a.y - b.y) = 0 := by linarith
      exact sub_eq_zero.mp (mul_self_eq_zero.mp this)
    · have : (a.z - b.z) * (a.z - b.z) = 0 := by linarith
      exact sub_eq_zero.mp (mul_self_eq_zero.mp this)
  · rintro ⟨hx, hy, hz⟩
    simp [hx, hy, hz]

theorem lm_injective (a b : Landmark ℝ) (h : (lm a).x = (lm b).x ∧ (lm a).y = (lm b).y ∧
    (lm a).z = (lm b).z) : a = b := by
  obtain ⟨hx, hy, hz⟩ := h
  cases a
  cases b
  simp only [lm] at hx hy hz
  simp only [Landmark.mk.injEq]
  refine ⟨?_, ?_, ?_⟩ <;> linarith

theorem distanceTo_lm_pos (a b : Landmark ℝ) (h : a ≠ b) : 0 < (lm a).distanceTo (lm b) := by
  rcases (distanceTo_nonneg (lm a) (lm b)).lt_or_eq with hlt | heq
  · exact hlt
  · exact absurd (lm_injective a b ((distanceTo_eq_zero_iff _ _).mp heq.symm)) h

theorem solvePose_of_ne_zero (l r n : Vector3 ℝ) (hw : l.distanceTo r ≠ 0) :
    solvePose l r n = some
      ⟨⟨(l.x + r.x) * 0.5, (l.y + r.y) * 0.5, (l.z + r.z) * 0.5⟩, l.distanceTo r,
       (r.z - l.z) / l.distanceTo r, (l.y + r.y) * 0.5 - l.distanceTo r * 0.18, n⟩ := by
  simp [solvePose, hw, Vector3.clone, Vector3.add, Vector3.multiplyScalar]

theorem solvePose_of_zero (l r n : Vector3 ℝ) (hw : l.distanceTo r = 0) :
    solvePose l r n = none := by
  simp [solvePose, hw]

theorem onResults_of_pose (s : State ℝ) (res : Results ℝ) (left right : Earring ℝ)
    (f : List (Landmark ℝ)) (rest : List (List (Landmark ℝ))) (l234 l454 l1 : Landmark ℝ)
    (c : Pose ℝ)
    (hl : s.leftEarring = some left) (hr : s.rightEarring = some right)
    (hres : res.multiFaceLandmarks = some (f :: rest))
    (h234 : f[234]? = some l234) (h454 : f[454]? = some l454) (h1 : f[1]? = some l1)
    (hc : solvePose (lm l234) (lm l454) (lm l1) = some c) :
    onResults s res = .returned ⟨some (place c left), some (place c right), s.currentMetal⟩ := by
  simp [onResults, hl, hr, hres, h234, h454, h1, hc]

theorem onResults_of_zero_width (s : State ℝ) (res : Results ℝ) (left : Earring ℝ)
    (f : List (Landmark ℝ)) (rest : List (List (Landmark ℝ))) (l234 l454 l1 : Landmark ℝ)
    (hl : s.leftEarring = some left)
    (hres : res.multiFaceLandmarks = some (f :: rest))
    (h234 : f[234]? = some l234) (h454 : f[454]? = some l454) (h1 : f[1]? = some l1)
    (hc : solvePose (lm l234) (lm l454) (lm l1) = none) :
    onResults s res = .notANumber := by
  simp [onResults, hl, hres, h234, h454, h1, hc]

theorem scenario2_distanceToSquared :
    (lm (rawLeftCheek : Landmark ℝ)).distanceToSquared (lm rawRightCheekFar) = 0.61 := by
  simp only [Vector3.distanceToSquared, lm, rawLeftCheek, rawRightCheekFar]
  norm_num

theorem scenario2_distanceTo : (lm (rawLeftCheek : Landmark ℝ)).distanceTo (lm rawRightCheekFar)
    = Real.sqrt 0.61 := by
  unfold Vector3.distanceTo
  rw [scenario2_distanceToSquared]

theorem sqrt_061_bounds : (0.781 : ℝ) < Real.sqrt 0.61 ∧ Real.sqrt 0.61 < 0.78125 := by
  constructor
  · apply Real.lt_sqrt_of_sq_lt
    norm_num
  · rw [Real.sqrt_lt' (by norm_num)]
    norm_num

theorem place_visible_left (c : Pose K) (m : Earring K) (h : m.side = -1) :
    ((place c m).visible = true ↔ c.yaw < 0.15) := by
  simp [place, h]

theorem place_visible_right (c : Pose K) (m : Earring K) (h : m.side = 1) :
    ((place c m).visible = true ↔ c.yaw > -0.15) := by
  have h1 : (1 : K) ≠ -1 := by norm_num
  simp [place, h, h1]

mutual
theorem Object3D.materials_traverse {α : Type} (cb : Material α → Material α) :
    ∀ o : Object3D α, (o.traverse cb).materials = o.materials.map cb
  | .node m cs => by
    rw [Object3D.traverse, Object3D.materials, Object3D.materials,
      Object3D.materialsAll_traverseAll cb cs, List.map_append]
    cases m <;> rfl
theorem Object3D.materialsAll_traverseAll {α : Type} (cb : Material α → Material α) :
    ∀ cs : List (Object3D α),
      Object3D.materialsAll (Object3D.traverseAll cb cs) = (Object3D.materialsAll cs).map cb
  | [] => rfl
  | c :: cs => by
    rw [Object3D.traverseAll, Object3D.materialsAll, Object3D.materialsAll,
      Object3D.materials_traverse cb c, Object3D.materialsAll_traverseAll cb cs,
      List.map_append]
end

mutual
theorem Object3D.traverse_traverse {α : Type} (f g : Material α → Material α) :
    ∀ o : Object3D α, (o.traverse f).traverse g = o.traverse (g ∘ f)
  | .node m cs => by
    rw [Object3D.traverse, Object3D.traverse, Object3D.traverse,
      Object3D.traverseAll_traverseAll f g cs, Option.map_map]
theorem Object3D.traverseAll_traverseAll {α : Type} (f g : Material α → Material α) :
    ∀ cs : List (Object3D α),
      Object3D.traverseAll g (Object3D.traverseAll f cs) = Object3D.traverseAll (g ∘ f) cs
  | [] => rfl
  | c :: cs => by
    rw [Object3D.traverseAll, Object3D.traverseAll, Object3D.traverseAll,
      Object3D.traverse_traverse f g c, Object3D.traverseAll_traverseAll f g cs]
end

theorem setPreset_comp {α : Type} (a b : Preset α) :
    (Material.setPreset b ∘ Material.setPreset a : Material α → Material α)
      = Material.setPreset b := by
  funext mat
  rfl

theorem METALS_of_mem (t : String) (h : t ∈ ["gold", "silver", "rose"]) :
    ∃ m : Preset K, METALS t = some m := by
  simp only [List.mem_cons, List.mem_singleton, List.not_mem_nil, or_false] at h
  rcases h with h | h | h <;> subst h <;> exact ⟨_, rfl⟩

theorem setMetal_of_preset (s : State K) (t : String) (m : Preset K) (left right : Earring K)
    (hm : METALS t = some m)
    (hl : s.leftEarring = some left) (hr : s.rightEarring = some right) :
    setMetal s t = .returned
      ⟨some { left with graph := left.graph.traverse (Material.setPreset m) },
       some { right with graph := right.graph.traverse (Material.setPreset m) }, t⟩ := by
  simp [setMetal, applyMetal, hm, hl, hr]

theorem placeN_succ (c : Pose K) (n : Nat) (m : Earring K) :
    placeN c (n + 1) m = place c (placeN c n m) :=
  Function.iterate_succ_apply' (place c) n m

theorem placeN_side (c : Pose K) (n : Nat) (m : Earring K) : (placeN c n m).side = m.side := by
  induction n with
  | zero => rfl
  | succ n ih => rw [placeN_succ]; exact ih

theorem placeN_succ_position (c : Pose K) (n : Nat) (m : Earring K) :
    (placeN c (n + 1) m).position = (placeN c n m).position.lerp (target c m.side) 0.45 := by
  rw [placeN_succ]
  show (placeN c n m).position.lerp (target c (placeN c n m).side) 0.45 = _
  rw [placeN_side]

theorem lerp_between (p T : K) :
    min p T ≤ p + (T - p) * 0.45 ∧ p + (T - p) * 0.45 ≤ max p T := by
  have h45 : (0.45 : K) = 45 / 100 := by norm_num
  rcases le_total p T with h | h
  · rw [min_eq_left h, max_eq_right h, h45]
    constructor <;> linarith
  · rw [min_eq_right h, max_eq_left h, h45]
    constructor <;> linarith

theorem lerp_distanceTo (p T : Vector3 ℝ) :
    (p.lerp T 0.45).distanceTo T = 0.55 * p.distanceTo T := by
  apply distanceTo_eq_of_sq _ _ _ (mul_nonneg (by norm_num) (distanceTo_nonneg p T))
  have h := distanceTo_mul_self p T
  have e : 0.55 * p.distanceTo T * (0.55 * p.distanceTo T)
      = 0.55 * 0.55 * (p.distanceTo T * p.distanceTo T) := by ring
  rw [e, h]
  simp only [Vector3.distanceToSquared, Vector3.lerp]
  ring

theorem placeN_distanceTo (c : Pose ℝ) (n : Nat) (m : Earring ℝ) :
    (placeN c n m).position.distanceTo (target c m.side)
      = 0.55 ^ n * m.position.distanceTo (target c m.side) := by
  induction n with
  | zero => simp [placeN]
  | succ n ih => rw [placeN_succ_position, lerp_distanceTo, ih]; ring

theorem distanceTo_affine (l r t : Vector3 ℝ) (k : ℝ) (hk : 0 < k) :
    ((l.multiplyScalar k).add t).distanceTo ((r.multiplyScalar k).add t)
      = k * l.distanceTo r := by
  apply distanceTo_eq_of_sq _ _ _ (mul_nonneg hk.le (distanceTo_nonneg l r))
  have h := distanceTo_mul_self l r
  have e : k * l.distanceTo r * (k * l.distanceTo r)
      = k * k * (l.distanceTo r * l.distanceTo r) := by ring
  rw [e, h]
  simp only [Vector3.distanceToSquared, Vector3.multiplyScalar, Vector3.add]
  ring

theorem width_zero_numerator_zero (l r : Vector3 ℝ) (h : l.distanceTo r = 0) :
    r.z - l.z = 0 := by
  have hz := ((distanceTo_eq_zero_iff l r).mp h).2.2
  rw [hz, sub_self]

theorem solvePoseJS_yaw_of_zero (l r n : Vector3 ℝ) (h : l.distanceTo r = 0) :
    (solvePoseJS l r n).yaw = none := by
  simp [solvePoseJS, h]

theorem solvePoseJS_yaw_of_ne_zero (l r n : Vector3 ℝ) (h : l.distanceTo r ≠ 0) :
    (solvePoseJS l r n).yaw = some ((r.z - l.z) / l.distanceTo r) := by
  simp [solvePoseJS, h]

theorem solvePoseJS_of_solvePose (l r n : Vector3 ℝ) (c : Pose ℝ)
    (h : solvePose l r n = some c) : solvePoseJS l r n = c.toJS := by
  by_cases hw : l.distanceTo r = 0
  · rw [solvePose_of_zero l r n hw] at h
    exact absurd h (by simp)
  · rw [solvePose_of_ne_zero l r n hw] at h
    rw [← Option.some.inj h]
    simp [solvePoseJS, hw, Pose.toJS, Vector3.clone, Vector3.add, Vector3.multiplyScalar]

theorem placeJS_toJS (c : Pose K) (m : Earring K) :
    placeJS c.toJS m.toJS = (place c m).toJS := by
  simp only [placeJS, place, Pose.toJS, Earring.toJS, Vector3.toJS, lerpJS, targetJS, target,
    Vector3.lerp, Vector3.setScalar, nanAdd, nanSub, nanMul, nanAbs, nanLt, gt_iff_lt]

theorem onResultsJS_of_frame (s : StateJS ℝ) (res : Results ℝ) (left right : EarringJS ℝ)
    (f : List (Landmark ℝ)) (rest : List (List (Landmark ℝ))) (l234 l454 l1 : Landmark ℝ)
    (hl : s.leftEarring = some left) (hr : s.rightEarring = some right)
    (hres : res.multiFaceLandmarks = some (f :: rest))
    (h234 : f[234]? = some l234) (h454 : f[454]? = some l454) (h1 : f[1]? = some l1) :
    onResultsJS s res = .returned
      ⟨some (placeJS (solvePoseJS (lm l234) (lm l454) (lm l1)) left),
       some (placeJS (solvePoseJS (lm l234) (lm l454) (lm l1)) right), s.currentMetal⟩ := by
  simp [onResultsJS, hl, hr, hres, h234, h454, h1]

theorem placeJS_isNumber (c : PoseJS K) (m : EarringJS K) (y : K) (hy : c.yaw = some y)
    (hm : m.PoseIsNumber) : (placeJS c m).IsNumber := by
  obtain ⟨hx, hpy, hz, hrx, hry, hrz⟩ := hm
  obtain ⟨px, hpx⟩ := Option.isSome_iff_exists.mp hx
  obtain ⟨py, hpy⟩ := Option.isSome_iff_exists.mp hpy
  obtain ⟨pz, hpz⟩ := Option.isSome_iff_exists.mp hz
  obtain ⟨rz, hrz⟩ := Option.isSome_iff_exists.mp hrz
  simp only [EarringJS.IsNumber, EarringJS.PoseIsNumber, placeJS, lerpJS, targetJS, hy, hpx, hpy,
    hpz, hrz, nanAdd, nanSub, nanMul, nanAbs, Option.isSome_some, hrx, hry, and_self]

theorem placeJS_nan_of_yaw_nan (c : PoseJS K) (m : EarringJS K) (hy : c.yaw = none) :
    (placeJS c m).position.y = none ∧ (placeJS c m).position.z = none ∧
    (placeJS c m).rotation.z = none ∧ (placeJS c m).visible = false := by
  refine ⟨?_, ?_, ?_, ?_⟩
  · cases h : m.position.y <;> simp [placeJS, lerpJS, targetJS, hy, h, nanAdd, nanSub, nanMul, nanAbs]
  · cases h : m.position.z <;> simp [placeJS, lerpJS, targetJS, hy, h, nanAdd, nanSub, nanMul, nanAbs]
  · cases h : m.rotation.z <;> simp [placeJS, hy, h, nanAdd, nanSub, nanMul]
  · by_cases hs : m.side = -1 <;> simp [placeJS, hy, hs, nanLt]

theorem placeJS_nan_persists (c : PoseJS K) (m : EarringJS K) (hm : ¬ m.PoseIsNumber) :
    ¬ (placeJS c m).PoseIsNumber := by
  intro h
  apply hm
  obtain ⟨hx, hy, hz, hrx, hry, hrz⟩ := h
  refine ⟨?_, ?_, ?_, hrx, hry, ?_⟩
  · cases hp : m.position.x
    · simp [placeJS, lerpJS, hp, nanAdd] at hx
    · rfl
  · cases hp : m.position.y
    · simp [placeJS, lerpJS, hp, nanAdd] at hy
    · rfl
  · cases hp : m.position.z
    · simp [placeJS, lerpJS, hp, nanAdd] at hz
    · rfl
  · cases hp : m.rotation.z
    · simp [placeJS, hp, nanAdd] at hrz
    · rfl

theorem toJS_poseIsNumber {α : Type} (m : Earring α) : m.toJS.PoseIsNumber := by
  simp [EarringJS.PoseIsNumber, Earring.toJS, Vector3.toJS]

theorem onResultsJS_of_returned (s s2 : State ℝ) (res : Results ℝ)
    (h : onResults s res = .returned s2) : onResultsJS s.toJS res = .returned s2.toJS := by
  unfold onResults at h
  unfold onResultsJS
  cases hm : res.multiFaceLandmarks with
  | none =>
    simp only [hm] at h
    simp only [Outcome.returned.injEq] at h
    simp [h]
  | some faces =>
    cases hl : s.leftEarring with
    | none =>
      simp only [hm, hl] at h
      simp only [Outcome.returned.injEq] at h
      simp [State.toJS, hl, ← h]
    | some left =>
      simp only [hm, hl] at h
      cases hf : faces[0]? with
      | none => simp [hf] at h
      | some f =>
        simp only [hf] at h
        cases h234 : f[234]? with
        | none => simp [h234] at h
        | some a =>
          cases h454 : f[454]? with
          | none => simp [h234, h454] at h
          | some b =>
            cases h1 : f[1]? with
            | none => simp [h234, h454, h1] at h
            | some n =>
              simp only [h234, h454, h1] at h
              cases hc : solvePose (lm a) (lm b) (lm n) with
              | none => simp [hc] at h
              | some c =>
                simp only [hc] at h
                cases hr : s.rightEarring with
                | none => simp [hr] at h
                | some right =>
                  simp only [hr, Outcome.returned.injEq] at h
                  simp [State.toJS, hl, hr, hf, h234, h454, h1, ← h,
                    solvePoseJS_of_solvePose _ _ _ c hc, placeJS_toJS]

theorem onResultsJS_of_threw (s s2 : State ℝ) (e : JSError) (res : Results ℝ)
    (h : onResults s res = .threw e s2) : onResultsJS s.toJS res = .threw e s2.toJS := by
  cases e
  unfold onResults at h
  unfold onResultsJS
  cases hm : res.multiFaceLandmarks with
  | none => simp [hm] at h
  | some faces =>
    cases hl : s.leftEarring with
    | none => simp [hm, hl] at h
    | some left =>
      simp only [hm, hl] at h
      cases hf : faces[0]? with
      | none =>
        simp only [hf, Outcome.threw.injEq, true_and] at h
        simp [State.toJS, hl, hf, ← h]
      | some f =>
        simp only [hf] at h
        cases h234 : f[234]? with
        | none =>
          simp only [h234, Outcome.threw.injEq, true_and] at h
          simp [State.toJS, hl, hf, h234, ← h]
        | some a =>
          cases h454 : f[454]? with
          | none =>
            simp only [h234, h454, Outcome.threw.injEq, true_and] at h
            simp [State.toJS, hl, hf, h234, h454, ← h]
          | some b =>
            cases h1 : f[1]? with
            | none =>
              simp only [h234, h454, h1, Outcome.threw.injEq, true_and] at h
              simp [State.toJS, hl, hf, h234, h454, h1, ← h]
            | some n =>
              simp only [h234, h454, h1] at h
              cases hc : solvePose (lm a) (lm b) (lm n) with
              | none => simp [hc] at h
              | some c =>
                simp only [hc] at h
                cases hr : s.rightEarring with
                | none =>
                  simp only [hr, Outcome.threw.injEq, true_and] at h
                  simp [State.toJS, hl, hr, hf, h234, h454, h1, ← h,
                    solvePoseJS_of_solvePose _ _ _ c hc, placeJS_toJS]
                | some right => simp [hr] at h

theorem onResultsJS_of_notANumber (s : State ℝ) (res : Results ℝ)
    (h : onResults s res = .notANumber) :
    ∃ (s2 : StateJS ℝ) (left2 : EarringJS ℝ),
      (onResultsJS s.toJS res = .returned s2 ∨ onResultsJS s.toJS res = .threw .typeError s2) ∧
      s2.leftEarring = some left2 ∧
      left2.position.y = none ∧ left2.position.z = none ∧ left2.rotation.z = none := by
  unfold onResults at h
  unfold onResultsJS
  cases hm : res.multiFaceLandmarks with
  | none => simp [hm] at h
  | some faces =>
    cases hl : s.leftEarring with
    | none => simp [hm, hl] at h
    | some left =>
      simp only [hm, hl] at h
      cases hf : faces[0]? with
      | none => simp [hf] at h
      | some f =>
        simp only [hf] at h
        cases h234 : f[234]? with
        | none => simp [h234] at h
        | some a =>
          cases h454 : f[454]? with
          | none => simp [h234, h454] at h
          | some b =>
            cases h1 : f[1]? with
            | none => simp [h234, h454, h1] at h
            | some n =>
              simp only [h234, h454, h1] at h
              cases hc : solvePose (lm a) (lm b) (lm n) with
              | some c =>
                simp only [hc] at h
                cases hr : s.rightEarring <;> simp [hr] at h
              | none =>
                have hw : (lm a).distanceTo (lm b) = 0 := by
                  by_contra hne
                  rw [solvePose_of_ne_zero _ _ _ hne] at hc
                  exact absurd hc (by simp)
                have hy := solvePoseJS_yaw_of_zero (lm a) (lm b) (lm n) hw
                have hL := placeJS_nan_of_yaw_nan _ left.toJS hy
                cases hr : s.rightEarring with
                | none =>
                  exact ⟨⟨some (placeJS (solvePoseJS (lm a) (lm b) (lm n)) left.toJS), none,
                      s.currentMetal⟩, _,
                    Or.inr (by simp [State.toJS, hl, hr, hf, h234, h454, h1]), rfl,
                    hL.1, hL.2.1, hL.2.2.1⟩
                | some right =>
                  exact ⟨⟨some (placeJS (solvePoseJS (lm a) (lm b) (lm n)) left.toJS),
                      some (placeJS (solvePoseJS (lm a) (lm b) (lm n)) right.toJS),
                      s.currentMetal⟩, _,
                    Or.inl (by simp [State.toJS, hl, hr, hf, h234, h454, h1]), rfl,
                    hL.1, hL.2.1, hL.2.2.1⟩

/-! ## The claims -/

/-- C3: for every raw landmark `(x, y, z)` the function `lm` returns the point
with `X = (x - 0.5) * 2`, `Y = -(y - 0.5) * 2` and `Z = -z * 0.5`, that is
`X = 2 x - 1`, `Y = 1 - 2 y`, `Z = -z / 2`; the result is a function of the
argument alone. -/
theorem C3_lm_formula (l : Landmark K) :
    lm l = ⟨(l.x - 0.5) * 2, -(l.y - 0.5) * 2, -l.z * 0.5⟩ ∧
    (lm l).x = 2 * l.x - 1 ∧ (lm l).y = 1 - 2 * l.y ∧ (lm l).z = -(l.z / 2) := by
  refine ⟨rfl, ?_, ?_, ?_⟩ <;> simp only [lm] <;> norm_num <;> ring

/-- C1: for a face frame with landmarks at the indices 1, 234 and 454 and a
positive face width, and both earrings loaded, one call of `onResults` returns
with both earrings placed by the pose `c` whose `faceCenter` is the midpoint of
the cheeks, `faceWidth` their distance, `yaw` the quotient
`(rightCheek.z - leftCheek.z) / faceWidth` and `nose` the nose point; placing an
earring with side `s`, old position `p` and old rotation `r` gives the position
`p + 0.45 * (T - p)` for the target `T` of the specification, the scale
`faceWidth * 0.08` on all axes whatever the old scale, and the rotation
`r + (s * yaw * 0.6 - r) * 0.15` about z. -/
theorem C1_onResults_pose_update (s : State ℝ) (res : Results ℝ) (left right : Earring ℝ)
    (f : List (Landmark ℝ)) (rest : List (List (Landmark ℝ))) (l234 l454 l1 : Landmark ℝ)
    (hl : s.leftEarring = some left) (hr : s.rightEarring = some right)
    (hres : res.multiFaceLandmarks = some (f :: rest))
    (h234 : f[234]? = some l234) (h454 : f[454]? = some l454) (h1 : f[1]? = some l1)
    (hw : 0 < (lm l234).distanceTo (lm l454)) :
    ∃ c : Pose ℝ,
      c.faceCenter = ⟨((lm l234).x + (lm l454).x) * 0.5, ((lm l234).y + (lm l454).y) * 0.5,
        ((lm l234).z + (lm l454).z) * 0.5⟩ ∧
      c.faceWidth = (lm l234).distanceTo (lm l454) ∧
      c.yaw = ((lm l454).z - (lm l234).z) / c.faceWidth ∧
      c.nose = lm l1 ∧
      onResults s res = .returned ⟨some (place c left), some (place c right), s.currentMetal⟩ ∧
      ∀ m : Earring ℝ,
        (place c m).position.x = m.position.x +
          0.45 * ((c.faceCenter.x + m.side * c.faceWidth * 0.42) - m.position.x) ∧
        (place c m).position.y = m.position.y +
          0.45 * ((c.faceCenter.y - c.faceWidth * 0.18 - |c.yaw| * c.faceWidth * 0.04)
            - m.position.y) ∧
        (place c m).position.z = m.position.z +
          0.45 * ((c.nose.z - c.faceWidth * (0.25 + |c.yaw| * 0.4)) - m.position.z) ∧
        (place c m).scale = ⟨c.faceWidth * 0.08, c.faceWidth * 0.08, c.faceWidth * 0.08⟩ ∧
        (place c m).rotation.z = m.rotation.z + (m.side * c.yaw * 0.6 - m.rotation.z) * 0.15 := by
  refine ⟨_, rfl, rfl, rfl, rfl,
    onResults_of_pose s res left right f rest l234 l454 l1 _ hl hr hres h234 h454 h1
      (solvePose_of_ne_zero _ _ _ hw.ne.symm), ?_⟩
  intro m
  refine ⟨?_, ?_, ?_, ?_, ?_⟩
  · simp only [place, target, Vector3.lerp]; ring
  · simp only [place, target, Vector3.lerp]; ring
  · simp only [place, target, Vector3.lerp]; ring
  · simp only [place, Vector3.setScalar]
  · simp only [place]; ring

/-- Scenario 1, an instance of C1: with `leftCheek = (-0.3, 0, 0)`,
`rightCheek = (0.3, 0, 0)` and `nose = (0, 0, 0)` in render space the face width
is `0.6`, the yaw is `0`, and the target X is `faceCenter.x - 0.252` for the
left side and `faceCenter.x + 0.252` for the right side. -/
theorem C1_scenario1_witness :
    (0 : ℝ) < (lm rawLeftCheek).distanceTo (lm rawRightCheek) ∧
    ∃ c : Pose ℝ,
      onResults loadedState ⟨some [frameOf rawLeftCheek rawRightCheek rawNose]⟩ =
        .returned ⟨some (place c (exampleEarring (-1))), some (place c (exampleEarring 1)),
          "gold"⟩ ∧
      c.faceWidth = 0.6 ∧ c.yaw = 0 ∧
      (target c (-1)).x = c.faceCenter.x - 0.252 ∧
      (target c 1).x = c.faceCenter.x + 0.252 ∧
      (place c (exampleEarring (-1))).position.x = 0.45 * (c.faceCenter.x - 0.252) ∧
      (place c (exampleEarring 1)).position.x = 0.45 * (c.faceCenter.x + 0.252) := by
  have hd : (lm (rawLeftCheek : Landmark ℝ)).distanceTo (lm rawRightCheek) = 0.6 := by
    apply distanceTo_eq_of_sq _ _ _ (by norm_num)
    simp only [Vector3.distanceToSquared, lm, rawLeftCheek, rawRightCheek]
    norm_num
  have hw : (0 : ℝ) < (lm rawLeftCheek).distanceTo (lm rawRightCheek) := by
    rw [hd]; norm_num
  refine ⟨hw, ?_⟩
  obtain ⟨c, -, hcw, hyaw, -, hres, hplace⟩ :=
    C1_onResults_pose_update loadedState ⟨some [frameOf rawLeftCheek rawRightCheek rawNose]⟩
      (exampleEarring (-1)) (exampleEarring 1) (frameOf rawLeftCheek rawRightCheek rawNose) []
      rawLeftCheek rawRightCheek rawNose rfl rfl rfl (frameOf_234 _ _ _) (frameOf_454 _ _ _)
      (frameOf_1 _ _ _) hw
  have hcw6 : c.faceWidth = 0.6 := by rw [hcw, hd]
  have hy0 : c.yaw = 0 := by
    rw [hyaw]
    simp [lm, rawLeftCheek, rawRightCheek]
  refine ⟨c, hres, hcw6, hy0, ?_, ?_, ?_, ?_⟩
  · simp only [target, hcw6]
    ring
  · simp only [target, hcw6]
    ring
  · rw [(hplace (exampleEarring (-1))).1, hcw6]
    simp only [exampleEarring]
    ring
  · rw [(hplace (exampleEarring 1)).1, hcw6]
    simp only [exampleEarring]
    ring

/-- C2: for a frame with the three landmarks and a positive face width, with the
left earring of side `-1` and the right earring of side `+1` loaded, `onResults`
makes the left earring visible exactly when `yaw < 0.15` and the right earring
visible exactly when `yaw > -0.15`: both are visible for `-0.15 < yaw < 0.15`,
only the right one for `yaw ≥ 0.15`, only the left one for `yaw ≤ -0.15`. -/
theorem C2_visibility_deadband (s : State ℝ) (res : Results ℝ) (left right : Earring ℝ)
    (f : List (Landmark ℝ)) (rest : List (List (Landmark ℝ))) (l234 l454 l1 : Landmark ℝ)
    (hl : s.leftEarring = some left) (hr : s.rightEarring = some right)
    (hls : left.side = -1) (hrs : right.side = 1)
    (hres : res.multiFaceLandmarks = some (f :: rest))
    (h234 : f[234]? = some l234) (h454 : f[454]? = some l454) (h1 : f[1]? = some l1)
    (hw : 0 < (lm l234).distanceTo (lm l454)) :
    ∃ (yaw : ℝ) (left1 right1 : Earring ℝ),
      yaw = ((lm l454).z - (lm l234).z) / (lm l234).distanceTo (lm l454) ∧
      onResults s res = .returned ⟨some left1, some right1, s.currentMetal⟩ ∧
      (left1.visible = true ↔ yaw < 0.15) ∧
      (right1.visible = true ↔ yaw > -0.15) ∧
      (-0.15 < yaw ∧ yaw < 0.15 → left1.visible = true ∧ right1.visible = true) ∧
      (yaw ≥ 0.15 → right1.visible = true ∧ left1.visible = false) ∧
      (yaw ≤ -0.15 → left1.visible = true ∧ right1.visible = false) := by
  obtain ⟨c, hc, hyaw⟩ : ∃ c : Pose ℝ, solvePose (lm l234) (lm l454) (lm l1) = some c ∧
      c.yaw = ((lm l454).z - (lm l234).z) / (lm l234).distanceTo (lm l454) :=
    ⟨_, solvePose_of_ne_zero (lm l234) (lm l454) (lm l1) hw.ne.symm, rfl⟩
  have hL := place_visible_left c left hls
  have hR := place_visible_right c right hrs
  refine ⟨c.yaw, place c left, place c right, hyaw,
    onResults_of_pose s res left right f rest l234 l454 l1 c hl hr hres h234 h454 h1 hc,
    hL, hR, ?_, ?_, ?_⟩
  · rintro ⟨h1, h2⟩
    exact ⟨hL.mpr h2, hR.mpr h1⟩
  · intro h
    refine ⟨hR.mpr (by linarith), ?_⟩
    rw [Bool.eq_false_iff]
    intro hv
    have := hL.mp hv
    linarith
  · intro h
    refine ⟨hL.mpr (by linarith), ?_⟩
    rw [Bool.eq_false_iff]
    intro hv
    have := hR.mp hv
    linarith

/-- Scenario 2, an instance of C2: with the right cheek moved to `z = -0.5` the
yaw is at most `-0.15`, the left earring is shown and the right one hidden. -/
theorem C2_scenario2_witness :
    (0 : ℝ) < (lm rawLeftCheek).distanceTo (lm rawRightCheekFar) ∧
    ∃ (yaw : ℝ) (left1 right1 : Earring ℝ),
      onResults loadedState ⟨some [frameOf rawLeftCheek rawRightCheekFar rawNose]⟩ =
        .returned ⟨some left1, some right1, "gold"⟩ ∧
      yaw ≤ -0.15 ∧ left1.visible = true ∧ right1.visible = false := by
  have hw : (0 : ℝ) < (lm rawLeftCheek).distanceTo (lm rawRightCheekFar) := by
    rw [scenario2_distanceTo]
    linarith [sqrt_061_bounds.1]
  refine ⟨hw, ?_⟩
  obtain ⟨yaw, left1, right1, hy, hres, -, -, -, -, hneg⟩ :=
    C2_visibility_deadband loadedState ⟨some [frameOf rawLeftCheek rawRightCheekFar rawNose]⟩
      (exampleEarring (-1)) (exampleEarring 1) (frameOf rawLeftCheek rawRightCheekFar rawNose) []
      rawLeftCheek rawRightCheekFar rawNose rfl rfl rfl rfl rfl (frameOf_234 _ _ _)
      (frameOf_454 _ _ _) (frameOf_1 _ _ _) hw
  have hyaw : yaw ≤ -0.15 := by
    rw [hy, scenario2_distanceTo, div_le_iff₀ (by linarith [sqrt_061_bounds.1])]
    simp only [lm, rawLeftCheek, rawRightCheekFar]
    linarith [sqrt_061_bounds.2]
  exact ⟨yaw, left1, right1, hres, hyaw, hneg hyaw⟩

/-- C4: a result without `multiFaceLandmarks` leaves the state as it was and
raises no error, and so does any result while the left earring is not loaded;
but for an empty list of faces and a loaded left earring `onResults` throws a
`TypeError` (the state is still unchanged at the throw). -/
theorem C4_onResults_empty_face_list (s : State ℝ) :
    onResults s ⟨none⟩ = .returned s ∧
    (s.leftEarring = none → ∀ res : Results ℝ, onResults s res = .returned s) ∧
    (∀ left : Earring ℝ, s.leftEarring = some left →
      onResults s ⟨some []⟩ = .threw .typeError s) := by
  refine ⟨?_, ?_, ?_⟩
  · simp [onResults]
  · intro h res
    cases hm : res.multiFaceLandmarks <;> simp [onResults, hm, h]
  · intro left h
    simp [onResults, h]

/-- An instance of C4: with both earrings loaded, a result whose list of faces
is empty makes `onResults` throw. -/
theorem C4_empty_face_list_witness :
    (loadedState : State ℝ).leftEarring = some (exampleEarring (-1)) ∧
    onResults loadedState ⟨some []⟩ = .threw .typeError loadedState :=
  ⟨rfl, (C4_onResults_empty_face_list loadedState).2.2 (exampleEarring (-1)) rfl⟩

/-- C7: for a frame whose cheek landmarks are distinct, and both earrings loaded,
the face width is positive and the yaw used by `onResults` is
`(rightCheek.z - leftCheek.z) / faceWidth`; it is negative if
`leftCheek.z > rightCheek.z`, positive if `rightCheek.z > leftCheek.z`, and zero
exactly when the two z coordinates are equal. -/
theorem C7_yaw_sign (s : State ℝ) (res : Results ℝ) (left right : Earring ℝ)
    (f : List (Landmark ℝ)) (rest : List (List (Landmark ℝ))) (l234 l454 l1 : Landmark ℝ)
    (hl : s.leftEarring = some left) (hr : s.rightEarring = some right)
    (hres : res.multiFaceLandmarks = some (f :: rest))
    (h234 : f[234]? = some l234) (h454 : f[454]? = some l454) (h1 : f[1]? = some l1)
    (hne : l234 ≠ l454) :
    ∃ c : Pose ℝ,
      solvePose (lm l234) (lm l454) (lm l1) = some c ∧
      onResults s res = .returned ⟨some (place c left), some (place c right), s.currentMetal⟩ ∧
      0 < c.faceWidth ∧
      c.yaw = ((lm l454).z - (lm l234).z) / (lm l234).distanceTo (lm l454) ∧
      ((lm l234).z > (lm l454).z → c.yaw < 0) ∧
      ((lm l454).z > (lm l234).z → 0 < c.yaw) ∧
      (c.yaw = 0 ↔ (lm l234).z = (lm l454).z) := by
  have hw := distanceTo_lm_pos l234 l454 hne
  have hc := solvePose_of_ne_zero (lm l234) (lm l454) (lm l1) hw.ne.symm
  refine ⟨_, hc,
    onResults_of_pose s res left right f rest l234 l454 l1 _ hl hr hres h234 h454 h1 hc,
    hw, rfl, ?_, ?_, ?_⟩
  · intro h
    exact div_neg_of_neg_of_pos (by linarith) hw
  · intro h
    exact div_pos (by linarith) hw
  · show ((lm l454).z - (lm l234).z) / (lm l234).distanceTo (lm l454) = 0 ↔ _
    rw [div_eq_zero_iff]
    constructor
    · rintro (h | h)
      · linarith
      · exact absurd h hw.ne.symm
    · intro h
      left
      linarith

/-- Scenario 2, an instance of C7: the left cheek at `z = 0` is farther than the
right cheek at `z = -0.5`, and the yaw is negative. -/
theorem C7_scenario2_witness :
    (rawLeftCheek : Landmark ℝ) ≠ rawRightCheekFar ∧
    ∃ c : Pose ℝ,
      solvePose (lm rawLeftCheek) (lm rawRightCheekFar) (lm rawNose) = some c ∧
      onResults loadedState ⟨some [frameOf rawLeftCheek rawRightCheekFar rawNose]⟩ =
        .returned ⟨some (place c (exampleEarring (-1))), some (place c (exampleEarring 1)),
          "gold"⟩ ∧
      c.yaw < 0 := by
  have hne : (rawLeftCheek : Landmark ℝ) ≠ rawRightCheekFar := by
    simp only [rawLeftCheek, rawRightCheekFar, ne_eq, Landmark.mk.injEq]
    norm_num
  refine ⟨hne, ?_⟩
  obtain ⟨c, hc, hres, -, -, hneg, -, -⟩ :=
    C7_yaw_sign loadedState ⟨some [frameOf rawLeftCheek rawRightCheekFar rawNose]⟩
      (exampleEarring (-1)) (exampleEarring 1) (frameOf rawLeftCheek rawRightCheekFar rawNose) []
      rawLeftCheek rawRightCheekFar rawNose rfl rfl rfl (frameOf_234 _ _ _)
      (frameOf_454 _ _ _) (frameOf_1 _ _ _) hne
  refine ⟨c, hc, hres, hneg ?_⟩
  simp only [lm, rawLeftCheek, rawRightCheekFar]
  norm_num

/-- C8, as stated, fails: a frame that supplies the landmarks 1, 234 and 454
with the two cheek landmarks at the same point, both earrings loaded and holding
numbers, has face width zero; the divisor of the yaw is zero, `onResults`
returns, and position.y, position.z and rotation.z of both earrings are `NaN`
afterwards. -/
theorem C8_zero_width_counterexample :
    (frameOf rawNose rawNose rawNose : List (Landmark ℝ))[1]? = some rawNose ∧
    (frameOf rawNose rawNose rawNose : List (Landmark ℝ))[234]? = some rawNose ∧
    (frameOf rawNose rawNose rawNose : List (Landmark ℝ))[454]? = some rawNose ∧
    (lm (rawNose : Landmark ℝ)).distanceTo (lm rawNose) = 0 ∧
    (exampleEarring (-1) : Earring ℝ).toJS.PoseIsNumber ∧
    (exampleEarring 1 : Earring ℝ).toJS.PoseIsNumber ∧
    ∃ left1 right1 : EarringJS ℝ,
      onResultsJS (loadedState : State ℝ).toJS ⟨some [frameOf rawNose rawNose rawNose]⟩
        = .returned ⟨some left1, some right1, "gold"⟩ ∧
      left1.position.y = none ∧ left1.position.z = none ∧ left1.rotation.z = none ∧
      right1.position.y = none ∧ right1.position.z = none ∧ right1.rotation.z = none ∧
      ¬ left1.IsNumber ∧ ¬ right1.IsNumber := by
  have hz : (lm (rawNose : Landmark ℝ)).distanceTo (lm rawNose) = 0 :=
    (distanceTo_eq_zero_iff _ _).mpr ⟨rfl, rfl, rfl⟩
  have hy := solvePoseJS_yaw_of_zero (lm rawNose) (lm rawNose) (lm (rawNose : Landmark ℝ)) hz
  have hL := placeJS_nan_of_yaw_nan _ (exampleEarring (-1) : Earring ℝ).toJS hy
  have hR := placeJS_nan_of_yaw_nan _ (exampleEarring 1 : Earring ℝ).toJS hy
  refine ⟨frameOf_1 _ _ _, frameOf_234 _ _ _, frameOf_454 _ _ _, hz, toJS_poseIsNumber _,
    toJS_poseIsNumber _, _, _,
    onResultsJS_of_frame (loadedState : State ℝ).toJS _ _ _ _ [] rawNose rawNose rawNose
      rfl rfl rfl (frameOf_234 _ _ _) (frameOf_454 _ _ _) (frameOf_1 _ _ _),
    hL.1, hL.2.1, hL.2.2.1, hR.1, hR.2.1, hR.2.2.1, ?_, ?_⟩
  · intro h
    have := h.1.2.1
    rw [hL.1] at this
    exact absurd this (by simp)
  · intro h
    have := h.1.2.1
    rw [hR.1] at this
    exact absurd this (by simp)

/-- C8, amended: for a frame that supplies the landmarks 1, 234 and 454, with
both earrings loaded, `onResults` returns with both earrings placed.  If the
face width is not zero and position and rotation of an earring held numbers
before, then position, scale and rotation of that earring are numbers after.
If the face width is zero, then position.y, position.z and rotation.z of both
earrings are `NaN` after; and an earring that held a `NaN` in position or
rotation before still holds one after, whatever the frame. -/
theorem C8_update_defined_of_width_ne_zero (s : StateJS ℝ) (res : Results ℝ)
    (left right : EarringJS ℝ)
    (f : List (Landmark ℝ)) (rest : List (List (Landmark ℝ))) (l234 l454 l1 : Landmark ℝ)
    (hl : s.leftEarring = some left) (hr : s.rightEarring = some right)
    (hres : res.multiFaceLandmarks = some (f :: rest))
    (h234 : f[234]? = some l234) (h454 : f[454]? = some l454) (h1 : f[1]? = some l1) :
    ∃ left1 right1 : EarringJS ℝ,
      onResultsJS s res = .returned ⟨some left1, some right1, s.currentMetal⟩ ∧
      ((lm l234).distanceTo (lm l454) ≠ 0 →
        (left.PoseIsNumber → left1.IsNumber) ∧ (right.PoseIsNumber → right1.IsNumber)) ∧
      ((lm l234).distanceTo (lm l454) = 0 →
        left1.position.y = none ∧ left1.position.z = none ∧ left1.rotation.z = none ∧
        right1.position.y = none ∧ right1.position.z = none ∧ right1.rotation.z = none) ∧
      (¬ left.PoseIsNumber → ¬ left1.PoseIsNumber) ∧
      (¬ right.PoseIsNumber → ¬ right1.PoseIsNumber) := by
  refine ⟨_, _, onResultsJS_of_frame s res left right f rest l234 l454 l1 hl hr hres h234 h454 h1,
    ?_, ?_, placeJS_nan_persists _ left, placeJS_nan_persists _ right⟩
  · intro hw
    have hy := solvePoseJS_yaw_of_ne_zero (lm l234) (lm l454) (lm l1) hw
    exact ⟨placeJS_isNumber _ left _ hy, placeJS_isNumber _ right _ hy⟩
  · intro hw
    have hy := solvePoseJS_yaw_of_zero (lm l234) (lm l454) (lm l1) hw
    have hL := placeJS_nan_of_yaw_nan _ left hy
    have hR := placeJS_nan_of_yaw_nan _ right hy
    exact ⟨hL.1, hL.2.1, hL.2.2.1, hR.1, hR.2.1, hR.2.2.1⟩

/-- Scenario 1, an instance of the amended C8: the face width is `0.6`, the
example earrings hold numbers, and after `onResults` position, scale and
rotation of both are numbers. -/
theorem C8_scenario1_witness :
    (lm (rawLeftCheek : Landmark ℝ)).distanceTo (lm rawRightCheek) ≠ 0 ∧
    (exampleEarring (-1) : Earring ℝ).toJS.PoseIsNumber ∧
    (exampleEarring 1 : Earring ℝ).toJS.PoseIsNumber ∧
    ∃ left1 right1 : EarringJS ℝ,
      onResultsJS (loadedState : State ℝ).toJS
          ⟨some [frameOf rawLeftCheek rawRightCheek rawNose]⟩
        = .returned ⟨some left1, some right1, "gold"⟩ ∧
      left1.IsNumber ∧ right1.IsNumber := by
  have hne : (rawLeftCheek : Landmark ℝ) ≠ rawRightCheek := by
    simp only [rawLeftCheek, rawRightCheek, ne_eq, Landmark.mk.injEq]
    norm_num
  have hw : (lm (rawLeftCheek : Landmark ℝ)).distanceTo (lm rawRightCheek) ≠ 0 :=
    (distanceTo_lm_pos _ _ hne).ne.symm
  obtain ⟨left1, right1, hret, hnum, -, -, -⟩ :=
    C8_update_defined_of_width_ne_zero (loadedState : State ℝ).toJS
      ⟨some [frameOf rawLeftCheek rawRightCheek rawNose]⟩
      (exampleEarring (-1) : Earring ℝ).toJS (exampleEarring 1 : Earring ℝ).toJS
      (frameOf rawLeftCheek rawRightCheek rawNose) []
      rawLeftCheek rawRightCheek rawNose rfl rfl rfl (frameOf_234 _ _ _)
      (frameOf_454 _ _ _) (frameOf_1 _ _ _)
  exact ⟨hw, toJS_poseIsNumber _, toJS_poseIsNumber _, left1, right1, hret,
    (hnum hw).1 (toJS_poseIsNumber _), (hnum hw).2 (toJS_poseIsNumber _)⟩

/-- C9, as stated, fails: for `leftCheek = (-0.3, 0, 0)`, `rightCheek =
(0.3, 0, -0.5)` and `nose = (0, 0, 0)` the pose has a face width other than `0.6`
and a yaw other than `-5/6`. -/
theorem C9_scenario2_counterexample :
    ∃ c : Pose ℝ,
      solvePose (⟨-0.3, 0, 0⟩ : Vector3 ℝ) ⟨0.3, 0, -0.5⟩ ⟨0, 0, 0⟩ = some c ∧
      c.faceWidth ≠ 0.6 ∧ c.yaw ≠ -5 / 6 := by
  have hd : (⟨-0.3, 0, 0⟩ : Vector3 ℝ).distanceTo ⟨0.3, 0, -0.5⟩ = Real.sqrt 0.61 := by
    unfold Vector3.distanceTo Vector3.distanceToSquared
    norm_num
  have hlo := sqrt_061_bounds.1
  have hw : (⟨-0.3, 0, 0⟩ : Vector3 ℝ).distanceTo ⟨0.3, 0, -0.5⟩ ≠ 0 := by
    rw [hd]
    linarith
  refine ⟨_, solvePose_of_ne_zero _ _ _ hw, ?_, ?_⟩
  · show (⟨-0.3, 0, 0⟩ : Vector3 ℝ).distanceTo ⟨0.3, 0, -0.5⟩ ≠ 0.6
    rw [hd]
    linarith
  · show ((-0.5 : ℝ) - 0) / (⟨-0.3, 0, 0⟩ : Vector3 ℝ).distanceTo ⟨0.3, 0, -0.5⟩ ≠ -5 / 6
    rw [hd]
    intro h
    rw [div_eq_iff (by linarith)] at h
    linarith

/-- C9, amended: for `leftCheek = (-0.3, 0, 0)`, `rightCheek = (0.3, 0, -0.5)` and
`nose = (0, 0, 0)` the face width is the distance in space `√0.61` (about
`0.781`) and the yaw is `(-0.5 - 0) / √0.61`, between `-0.641` and `-0.640`. -/
theorem C9_scenario2_yaw :
    ∃ c : Pose ℝ,
      solvePose (⟨-0.3, 0, 0⟩ : Vector3 ℝ) ⟨0.3, 0, -0.5⟩ ⟨0, 0, 0⟩ = some c ∧
      c.faceWidth = Real.sqrt 0.61 ∧
      0.78 < c.faceWidth ∧ c.faceWidth < 0.782 ∧
      c.yaw = (-0.5 - 0) / Real.sqrt 0.61 ∧
      -0.641 < c.yaw ∧ c.yaw < -0.640 := by
  have hd : (⟨-0.3, 0, 0⟩ : Vector3 ℝ).distanceTo ⟨0.3, 0, -0.5⟩ = Real.sqrt 0.61 := by
    unfold Vector3.distanceTo Vector3.distanceToSquared
    norm_num
  obtain ⟨hlo, hhi⟩ := sqrt_061_bounds
  have hpos : (0 : ℝ) < Real.sqrt 0.61 := by linarith
  have hw : (⟨-0.3, 0, 0⟩ : Vector3 ℝ).distanceTo ⟨0.3, 0, -0.5⟩ ≠ 0 := by
    rw [hd]
    linarith
  refine ⟨_, solvePose_of_ne_zero _ _ _ hw, hd, ?_, ?_, ?_, ?_, ?_⟩
  · show (0.78 : ℝ) < (⟨-0.3, 0, 0⟩ : Vector3 ℝ).distanceTo ⟨0.3, 0, -0.5⟩
    rw [hd]
    linarith
  · show (⟨-0.3, 0, 0⟩ : Vector3 ℝ).distanceTo ⟨0.3, 0, -0.5⟩ < 0.782
    rw [hd]
    linarith
  · show ((-0.5 : ℝ) - 0) / (⟨-0.3, 0, 0⟩ : Vector3 ℝ).distanceTo ⟨0.3, 0, -0.5⟩ = _
    rw [hd]
  · show (-0.641 : ℝ) < ((-0.5 : ℝ) - 0) / (⟨-0.3, 0, 0⟩ : Vector3 ℝ).distanceTo ⟨0.3, 0, -0.5⟩
    rw [hd, lt_div_iff₀ hpos]
    linarith
  · show ((-0.5 : ℝ) - 0) / (⟨-0.3, 0, 0⟩ : Vector3 ℝ).distanceTo ⟨0.3, 0, -0.5⟩ < -0.640
    rw [hd, div_lt_iff₀ hpos]
    linarith

/-- C5: for preset names `a` and `b` among gold, silver and rose and both
earrings loaded, `setMetal(a)` followed by `setMetal(b)` returns with
`currentMetal = b` and with color, metalness and roughness of every mesh
material of both earrings equal to `METALS[b]`; the state is the one that
`setMetal(b)` alone reaches, and no mesh is added or lost. -/
theorem C5_setMetal_twice (s : State K) (left right : Earring K) (a b : String)
    (ha : a ∈ ["gold", "silver", "rose"]) (hb : b ∈ ["gold", "silver", "rose"])
    (hl : s.leftEarring = some left) (hr : s.rightEarring = some right) :
    ∃ (m : Preset K) (s1 : State K) (left2 right2 : Earring K),
      METALS b = some m ∧
      setMetal s a = .returned s1 ∧
      setMetal s1 b = .returned ⟨some left2, some right2, b⟩ ∧
      setMetal s b = .returned ⟨some left2, some right2, b⟩ ∧
      left2.graph.materials.length = left.graph.materials.length ∧
      right2.graph.materials.length = right.graph.materials.length ∧
      ∀ mat ∈ left2.graph.materials ++ right2.graph.materials,
        mat.color = m.color ∧ mat.metalness = m.metalness ∧ mat.roughness = m.roughness := by
  obtain ⟨ma, hma⟩ := METALS_of_mem (K := K) a ha
  obtain ⟨mb, hmb⟩ := METALS_of_mem (K := K) b hb
  have h1 := setMetal_of_preset s a ma left right hma hl hr
  have h2 := setMetal_of_preset _ b mb _ _ hmb
    (rfl : (State.mk (some { left with graph := left.graph.traverse (Material.setPreset ma) })
      (some { right with graph := right.graph.traverse (Material.setPreset ma) }) a).leftEarring
        = _) rfl
  have h3 := setMetal_of_preset s b mb left right hmb hl hr
  simp only [Object3D.traverse_traverse, setPreset_comp] at h2
  refine ⟨mb, _, _, _, hmb, h1, h2, h3, ?_, ?_, ?_⟩
  · simp [Object3D.materials_traverse]
  · simp [Object3D.materials_traverse]
  · intro mat hmat
    simp only [Object3D.materials_traverse, List.mem_append, List.mem_map] at hmat
    rcases hmat with ⟨m0, -, rfl⟩ | ⟨m0, -, rfl⟩ <;> exact ⟨rfl, rfl, rfl⟩

/-- An instance of C5: gold, then silver, on the example state with two meshes
per earring; every material ends with the silver values. -/
theorem C5_gold_then_silver_witness :
    "gold" ∈ ["gold", "silver", "rose"] ∧ "silver" ∈ ["gold", "silver", "rose"] ∧
    ∃ (s1 : State ℚ) (left2 right2 : Earring ℚ),
      setMetal loadedState "gold" = .returned s1 ∧
      setMetal s1 "silver" = .returned ⟨some left2, some right2, "silver"⟩ ∧
      left2.graph.materials.length = 2 ∧ right2.graph.materials.length = 2 ∧
      ∀ mat ∈ left2.graph.materials ++ right2.graph.materials,
        mat.color = 0xe6e6e6 ∧ mat.metalness = 1.0 ∧ mat.roughness = 0.2 := by
  have ha : "gold" ∈ ["gold", "silver", "rose"] := by decide
  have hb : "silver" ∈ ["gold", "silver", "rose"] := by decide
  refine ⟨ha, hb, ?_⟩
  obtain ⟨m, s1, left2, right2, hm, h1, h2, -, hlen1, hlen2, hall⟩ :=
    C5_setMetal_twice (loadedState : State ℚ) (exampleEarring (-1)) (exampleEarring 1)
      "gold" "silver" ha hb rfl rfl
  have hm2 : m = ⟨0xe6e6e6, 1.0, 0.2⟩ := by
    have : (METALS "silver" : Option (Preset ℚ)) = some ⟨0xe6e6e6, 1.0, 0.2⟩ := rfl
    rw [this] at hm
    exact (Option.some.inj hm).symm
  subst hm2
  exact ⟨s1, left2, right2, h1, h2, hlen1, hlen2, hall⟩

/-- C6: when `place` runs `n` times with the same locals, hence the same target
`T`, the position `p_n` satisfies `p_n - T = 0.55 ^ n * (p_0 - T)` in every
coordinate; every coordinate of `p_(n+1)` lies between those of `p_n` and `T`;
the distance to `T` is `0.55 ^ n` times the first distance, does not increase,
and tends to `0`. -/
theorem C6_position_converges (c : Pose ℝ) (m : Earring ℝ) (n : Nat) :
    ((placeN c n m).position.x - (target c m.side).x
        = 0.55 ^ n * (m.position.x - (target c m.side).x) ∧
      (placeN c n m).position.y - (target c m.side).y
        = 0.55 ^ n * (m.position.y - (target c m.side).y) ∧
      (placeN c n m).position.z - (target c m.side).z
        = 0.55 ^ n * (m.position.z - (target c m.side).z)) ∧
    (min (placeN c n m).position.x (target c m.side).x ≤ (placeN c (n + 1) m).position.x ∧
      (placeN c (n + 1) m).position.x ≤ max (placeN c n m).position.x (target c m.side).x ∧
      min (placeN c n m).position.y (target c m.side).y ≤ (placeN c (n + 1) m).position.y ∧
      (placeN c (n + 1) m).position.y ≤ max (placeN c n m).position.y (target c m.side).y ∧
      min (placeN c n m).position.z (target c m.side).z ≤ (placeN c (n + 1) m).position.z ∧
      (placeN c (n + 1) m).position.z ≤ max (placeN c n m).position.z (target c m.side).z) ∧
    (placeN c n m).position.distanceTo (target c m.side)
      = 0.55 ^ n * m.position.distanceTo (target c m.side) ∧
    (placeN c (n + 1) m).position.distanceTo (target c m.side)
      ≤ (placeN c n m).position.distanceTo (target c m.side) ∧
    Filter.Tendsto (fun k => (placeN c k m).position.distanceTo (target c m.side))
      Filter.atTop (nhds 0) := by
  refine ⟨?_, ?_, placeN_distanceTo c n m, ?_, ?_⟩
  · induction n with
    | zero => simp [placeN]
    | succ n ih =>
      obtain ⟨hx, hy, hz⟩ := ih
      rw [placeN_succ_position]
      simp only [Vector3.lerp, pow_succ]
      refine ⟨?_, ?_, ?_⟩
      · linear_combination 0.55 * hx
      · linear_combination 0.55 * hy
      · linear_combination 0.55 * hz
  · rw [placeN_succ_position]
    simp only [Vector3.lerp]
    exact ⟨(lerp_between _ _).1, (lerp_between _ _).2, (lerp_between _ _).1,
      (lerp_between _ _).2, (lerp_between _ _).1, (lerp_between _ _).2⟩
  · rw [placeN_succ_position, lerp_distanceTo]
    have := distanceTo_nonneg (placeN c n m).position (target c m.side)
    linarith
  · have h : Filter.Tendsto
        (fun k : Nat => (0.55 : ℝ) ^ k * m.position.distanceTo (target c m.side))
        Filter.atTop (nhds (0 * m.position.distanceTo (target c m.side))) :=
      (tendsto_pow_atTop_nhds_zero_of_lt_one (by norm_num) (by norm_num)).mul_const _
    rw [zero_mul] at h
    exact h.congr (fun k => (placeN_distanceTo c k m).symm)

/-- C10: replace the three render-space points `leftCheek`, `rightCheek`, `nose`
by `k * L + t` with `k > 0`.  The face width is multiplied by `k`.  If the face
width is zero, no yaw is defined before or after.  If it is not zero, the pose
update computes a pose `c` for the old points and a pose `c2` for the new ones;
`c2` has the yaw of `c`, `k` times its face width and the face center
`k * faceCenter + t`; `place` assigns the same visibility and `k` times the scale;
and the target of each side is mapped to `k * T + t`, so its offset from the face
center is multiplied by `k`, as the face width is. -/
theorem C10_pose_scale_invariance (l r n t : Vector3 ℝ) (k : ℝ) (hk : 0 < k) :
    ((l.multiplyScalar k).add t).distanceTo ((r.multiplyScalar k).add t)
      = k * l.distanceTo r ∧
    (l.distanceTo r = 0 →
      solvePose l r n = none ∧
      solvePose ((l.multiplyScalar k).add t) ((r.multiplyScalar k).add t)
        ((n.multiplyScalar k).add t) = none) ∧
    (l.distanceTo r ≠ 0 →
      ∃ c c2 : Pose ℝ,
        solvePose l r n = some c ∧
        solvePose ((l.multiplyScalar k).add t) ((r.multiplyScalar k).add t)
          ((n.multiplyScalar k).add t) = some c2 ∧
        c.faceWidth = l.distanceTo r ∧
        c.yaw = (r.z - l.z) / l.distanceTo r ∧
        c2.yaw = c.yaw ∧
        c2.faceWidth = k * c.faceWidth ∧
        c2.faceCenter = (c.faceCenter.multiplyScalar k).add t ∧
        (∀ m : Earring ℝ,
          (place c2 m).visible = (place c m).visible ∧
          (place c2 m).scale = (place c m).scale.multiplyScalar k) ∧
        (∀ side : ℝ,
          target c2 side = ((target c side).multiplyScalar k).add t ∧
          (target c2 side).x - c2.faceCenter.x = k * ((target c side).x - c.faceCenter.x) ∧
          (target c2 side).y - c2.faceCenter.y = k * ((target c side).y - c.faceCenter.y) ∧
          (target c2 side).z - c2.faceCenter.z
            = k * ((target c side).z - c.faceCenter.z))) := by
  have hd := distanceTo_affine l r t k hk
  refine ⟨hd, ?_, ?_⟩
  · intro hw
    refine ⟨solvePose_of_zero l r n hw, solvePose_of_zero _ _ _ ?_⟩
    rw [hd, hw, mul_zero]
  · intro hw
    have hw2 : ((l.multiplyScalar k).add t).distanceTo ((r.multiplyScalar k).add t) ≠ 0 := by
      rw [hd]
      exact mul_ne_zero hk.ne.symm hw
    have hyaw2 : (((r.multiplyScalar k).add t).z - ((l.multiplyScalar k).add t).z)
        / (k * l.distanceTo r) = (r.z - l.z) / l.distanceTo r := by
      simp only [Vector3.multiplyScalar, Vector3.add]
      field_simp
      ring
    have hyaw : (((r.multiplyScalar k).add t).z - ((l.multiplyScalar k).add t).z)
        / ((l.multiplyScalar k).add t).distanceTo ((r.multiplyScalar k).add t)
        = (r.z - l.z) / l.distanceTo r := by
      rw [hd]
      exact hyaw2
    refine ⟨_, _, solvePose_of_ne_zero l r n hw, solvePose_of_ne_zero _ _ _ hw2, rfl, rfl,
      hyaw, hd, ?_, ?_, ?_⟩
    · simp only [Vector3.multiplyScalar, Vector3.add, Vector3.mk.injEq]
      refine ⟨?_, ?_, ?_⟩ <;> ring
    · intro m
      constructor
      · simp only [place, hyaw]
      · simp only [place, Vector3.setScalar, hd]
        simp only [Vector3.multiplyScalar, Vector3.mk.injEq]
        refine ⟨?_, ?_, ?_⟩ <;> ring
    · intro side
      simp only [target, hd]
      simp only [hyaw2]
      simp only [Vector3.multiplyScalar, Vector3.add, Vector3.mk.injEq]
      refine ⟨⟨?_, ?_, ?_⟩, ?_, ?_, ?_⟩ <;> ring

/-- Scenario 2, an instance of C10: the points `(-0.3, 0, 0)`, `(0.3, 0, -0.5)`,
`(0, 0, 0)` doubled and shifted by `(1, 1, 1)`.  The face width `√0.61` is not
zero; both poses exist; the yaw is the same negative number, the face width
doubles to `2 * √0.61`, the right earring is hidden for both and the left one
shown for both. -/
theorem C10_scenario2_doubled_witness :
    (0 : ℝ) < 2 ∧
    (lm (rawLeftCheek : Landmark ℝ)).distanceTo (lm rawRightCheekFar) ≠ 0 ∧
    ∃ c c2 : Pose ℝ,
      solvePose (lm rawLeftCheek) (lm rawRightCheekFar) (lm rawNose) = some c ∧
      solvePose (((lm rawLeftCheek).multiplyScalar 2).add ⟨1, 1, 1⟩)
        (((lm rawRightCheekFar).multiplyScalar 2).add ⟨1, 1, 1⟩)
        (((lm rawNose).multiplyScalar 2).add ⟨1, 1, 1⟩) = some c2 ∧
      c.faceWidth = Real.sqrt 0.61 ∧ c2.faceWidth = 2 * Real.sqrt 0.61 ∧
      c.yaw < -0.15 ∧ c2.yaw = c.yaw ∧
      (place c (exampleEarring 1)).visible = false ∧
      (place c2 (exampleEarring 1)).visible = false ∧
      (place c (exampleEarring (-1))).visible = true ∧
      (place c2 (exampleEarring (-1))).visible = true ∧
      target c2 1 = ((target c 1).multiplyScalar 2).add ⟨1, 1, 1⟩ := by
  obtain ⟨hlo, hhi⟩ := sqrt_061_bounds
  have hw : (lm (rawLeftCheek : Landmark ℝ)).distanceTo (lm rawRightCheekFar) ≠ 0 := by
    rw [scenario2_distanceTo]
    linarith
  obtain ⟨c, c2, hc, hc2, hcw, hcy, hy, hw2, -, hplace, htarget⟩ :=
    (C10_pose_scale_invariance (lm rawLeftCheek) (lm rawRightCheekFar) (lm rawNose)
      ⟨1, 1, 1⟩ 2 (by norm_num)).2.2 hw
  have hcw61 : c.faceWidth = Real.sqrt 0.61 := by rw [hcw, scenario2_distanceTo]
  have hyneg : c.yaw < -0.15 := by
    rw [hcy, scenario2_distanceTo, div_lt_iff₀ (by linarith)]
    simp only [lm, rawLeftCheek, rawRightCheekFar]
    linarith
  have hR : (place c (exampleEarring 1)).visible = false := by
    rw [Bool.eq_false_iff]
    intro hv
    have := (place_visible_right c (exampleEarring 1) rfl).mp hv
    linarith
  have hL : (place c (exampleEarring (-1))).visible = true :=
    (place_visible_left c (exampleEarring (-1)) rfl).mpr (by linarith)
  refine ⟨by norm_num, hw, c, c2, hc, hc2, hcw61, ?_, hyneg, hy, hR, ?_, hL, ?_,
    (htarget 1).1⟩
  · rw [hw2, hcw61]
  · rw [(hplace (exampleEarring 1)).1]
    exact hR
  · rw [(hplace (exampleEarring (-1))).1]
    exact hL

end EarringTryon
